import Mathlib

/-!
Shallow embedding of `dev/recommendation-engine/ranking_system.py`
(`ProductRankingSystem`), the scoring engine of the catalog-ai repository.

Modelling conventions:
* pandas rows become Lean structures; the two loaded tables are lists.
* Timestamps are UTC epoch seconds (`Int`); a Python `timedelta.days` is
  floor division by 86400.
* Numeric columns are exact rationals (`ℚ`); Python float arithmetic on the
  small values involved is modelled exactly.
* A pandas column that may be absent (viewCount, clicks, averageTimeOnPage)
  is an `Option ℚ` field.  Column absence in pandas is table-wide, so a
  faithful table carries each such field uniformly `none` or uniformly
  `some` across its rows; a present column's empty cell (NaN) is not
  modelled.  `row['col']` on an absent column raises, which we model with
  `Except`; `row.get('col', 0)` becomes `Option.getD 0`.
* `self.ranking_scores` (a Python dict, insertion ordered) is an association
  list; assignment overwrites in place (`store`).
-/

namespace CatalogAI

/-- Row of `products_df` after CSV load (columns used by the engine). -/
structure Product where
  id : Int
  title : String
  vendor : String
  productType : String
  /-- Source: `createdAt`, normalized to UTC epoch seconds. -/
  createdAt : Int
  /-- Source: `variants.edges.node.inventoryQuantity`. -/
  inventoryQuantity : Int
  /-- Source: `variants.edges.node.priceV2.amount`. -/
  priceAmount : ℚ
  /-- Source: `variants.edges.node.compareAtPriceV2.amount`. -/
  compareAtPriceAmount : ℚ
  /-- Source: `viewCount`; `none` when the column is absent.  Since pandas
  column absence is table-wide, a faithful table has this field uniformly
  `none` or uniformly `some` across all rows. -/
  viewCount : Option ℚ
  /-- Source: `clicks`; `none` when the column is absent. -/
  clicks : Option ℚ
  /-- Source: `averageTimeOnPage`; `none` when the column is absent. -/
  averageTimeOnPage : Option ℚ
deriving Repr, DecidableEq

/-- Row of `orders_df` after `__init__` normalisation: `product_id` is the
trailing numeric segment of the Shopify GID, `quantity` is
`lineItems.edges.node.quantity`, `created_at` is UTC epoch seconds. -/
structure Order where
  product_id : Int
  quantity : ℚ
  created_at : Int
deriving Repr, DecidableEq

/-- Legacy factor weights (`self.weights`). -/
structure Weights where
  new_in : ℚ
  bestseller : ℚ
  slow_mover : ℚ
  low_stock : ℚ
  trending : ℚ
  out_of_stock : ℚ
  sale_item : ℚ
deriving Repr, DecidableEq

/-- Configuration thresholds (`self.config`). -/
structure Config where
  new_product_days : Int
  bestseller_percentage : ℚ
  low_stock_threshold : Int
  trending_period_days : Int
  trending_threshold : ℚ
  sale_discount_threshold : ℚ
deriving Repr, DecidableEq

/-- Value stored in `self.ranking_scores[product_id]` by
`calculate_ranking_score`: total score, timestamp, display fields and the
`optimization_scores` breakdown. -/
structure RankingEntry where
  score : ℚ
  updated_at : Int
  title : String
  vendor : String
  conversion_rate : ℚ
  aov : ℚ
  sell_through : ℚ
  traffic : ℚ
deriving Repr, DecidableEq

/-- Engine state: the two loaded tables, the mutable weight/config sets and
the ranking-result mapping. -/
structure State where
  products : List Product
  orders : List Order
  weights : Weights
  config : Config
  ranking_scores : List (Int × RankingEntry)
deriving Repr, DecidableEq

/-- Source: `self.weights` as set in `__init__`. -/
def default_weights : Weights :=
  { new_in := 5, bestseller := 10, slow_mover := 3, low_stock := 8,
    trending := 15, out_of_stock := -50, sale_item := -10 }

/-- Source: `self.config` as set in `__init__`. -/
def default_config : Config :=
  { new_product_days := 30, bestseller_percentage := 10,
    low_stock_threshold := 50, trending_period_days := 7,
    trending_threshold := 2, sale_discount_threshold := 15 }

def secondsPerDay : Int := 86400

/-- Source: `(now - created).days` of a Python `timedelta`: floor division of the
signed second difference by 86400. -/
def days_between (created now : Int) : Int := (now - created).fdiv secondsPerDay

/-- Source: `calculate_new_in_score`. -/
def calculate_new_in_score (s : State) (now : Int) (p : Product) : ℚ :=
  if days_between p.createdAt now ≤ s.config.new_product_days then
    s.weights.new_in
  else 0

/-- Rows of `orders_df` whose `product_id` equals `pid`. -/
def product_orders (s : State) (pid : Int) : List Order :=
  s.orders.filter (fun o => o.product_id == pid)

/-- Source: `product_orders['quantity'].sum()` for one product id. -/
def total_quantity (s : State) (pid : Int) : ℚ :=
  ((product_orders s pid).map Order.quantity).sum

/-- The distinct product ids occurring in `orders_df` (the keys of
`orders_df.groupby('product_id')`). -/
def order_pids (s : State) : List Int :=
  (s.orders.map Order.product_id).dedup

/-- Source: `orders_df.groupby('product_id')['quantity'].sum()`: one summed quantity
per distinct product id occurring in the order table. -/
def all_sales (s : State) : List ℚ :=
  (order_pids s).map (total_quantity s)

/-- pandas `Series.quantile(q)` with the default linear interpolation:
sort ascending, let `pos = q*(n-1)`, and interpolate between the values at
`⌊pos⌋` and the next index. -/
def pandas_quantile (xs : List ℚ) (q : ℚ) : ℚ :=
  let sorted := List.insertionSort (fun a b => a ≤ b) xs
  let n := xs.length
  let pos := q * ((n : ℚ) - 1)
  let i := (⌊pos⌋).toNat
  let lo := sorted.getD i 0
  let hi := sorted.getD (min (i + 1) (n - 1)) 0
  lo + (hi - lo) * (pos - (⌊pos⌋ : ℚ))

/-- Source: `calculate_bestseller_score`. -/
def calculate_bestseller_score (s : State) (pid : Int) : ℚ :=
  if (product_orders s pid).length > 0 then
    if pandas_quantile (all_sales s) (1 - s.config.bestseller_percentage / 100)
        ≤ total_quantity s pid then
      s.weights.bestseller
    else 0
  else 0

/-- Source: `calculate_stock_based_score`. -/
def calculate_stock_based_score (s : State) (p : Product) : ℚ :=
  if p.inventoryQuantity ≤ 0 then s.weights.out_of_stock
  else if p.inventoryQuantity ≤ s.config.low_stock_threshold then
    s.weights.low_stock
  else 0

/-- Source: `calculate_sale_item_score`. -/
def calculate_sale_item_score (s : State) (p : Product) : ℚ :=
  let regular_price := p.compareAtPriceAmount
  let sale_price := p.priceAmount
  if 0 < regular_price then
    if s.config.sale_discount_threshold
        ≤ ((regular_price - sale_price) / regular_price) * 100 then
      s.weights.sale_item
    else 0
  else 0

/-- Source: `orders_df['quantity'].mean()`. -/
def mean_quantity (s : State) : ℚ :=
  ((s.orders.map Order.quantity).sum) / (s.orders.length : ℚ)

/-- Source: `calculate_slow_mover_score`. -/
def calculate_slow_mover_score (s : State) (now : Int) (pid : Int) : ℚ :=
  let recent := s.orders.filter
    (fun o => decide (o.product_id = pid ∧ now - 30 * secondsPerDay < o.created_at))
  if recent.length > 0 then
    let older := s.orders.filter
      (fun o => decide (o.product_id = pid ∧ o.created_at ≤ now - 30 * secondsPerDay))
    if older.length > 0 then
      let recent_sales := (recent.map Order.quantity).sum
      let older_sales := (older.map Order.quantity).sum
      if recent_sales > older_sales ∧ older_sales < mean_quantity s then
        s.weights.slow_mover
      else 0
    else 0
  else 0

/-- Summed quantity of orders for `pid` inside the recent trending window
(`created_at > now - trending_period`). -/
def trending_recent_sales (s : State) (now : Int) (pid : Int) : ℚ :=
  let P := s.config.trending_period_days * secondsPerDay
  ((s.orders.filter
    (fun o => decide (o.product_id = pid ∧ now - P < o.created_at))).map
      Order.quantity).sum

/-- Summed quantity of orders for `pid` inside the previous trending window
(`now - 2*trending_period < created_at ≤ now - trending_period`). -/
def trending_previous_sales (s : State) (now : Int) (pid : Int) : ℚ :=
  let P := s.config.trending_period_days * secondsPerDay
  ((s.orders.filter
    (fun o => decide (o.product_id = pid ∧ o.created_at ≤ now - P ∧
      now - 2 * P < o.created_at))).map Order.quantity).sum

/-- Source: `calculate_trending_score`. -/
def calculate_trending_score (s : State) (now : Int) (pid : Int) : ℚ :=
  let recent_sales := trending_recent_sales s now pid
  let previous_sales := trending_previous_sales s now pid
  if 0 < previous_sales then
    if s.config.trending_threshold ≤ recent_sales / previous_sales then
      s.weights.trending
    else 0
  else if 0 < recent_sales then s.weights.trending
  else 0

/-- Source: `self.products_df[self.products_df['id'] == product_id].iloc[0]`:
first matching row, if any. -/
def find_product (s : State) (pid : Int) : Option Product :=
  s.products.find? (fun p => p.id == pid)

/-- Source: `calculate_conversion_rate_score`.  The two divisions by legacy weights
raise `ZeroDivisionError` in Python when the weight is 0; accessing
`viewCount` raises when the column is absent (table-wide in pandas, so the
`viewCount = none` branch is faithful on tables whose rows carry the field
uniformly); `.iloc[0]` raises when no product row matches. -/
def calculate_conversion_rate_score (s : State) (now : Int) (pid : Int) :
    Except String ℚ :=
  if s.weights.bestseller = 0 then .error "ZeroDivisionError"
  else if s.weights.trending = 0 then .error "ZeroDivisionError"
  else
    match find_product s pid with
    | none => .error "IndexError"
    | some p =>
      match p.viewCount with
      | none => .error "KeyError"
      | some product_views =>
        .ok (0.4 * (calculate_bestseller_score s pid / s.weights.bestseller)
          + 0.3 * (calculate_trending_score s now pid / s.weights.trending)
          + 0.3 * (((product_orders s pid).length : ℚ) / max product_views 1))

/-- Source: `products_df['variants.edges.node.priceV2.amount'].max()`. -/
def max_price (s : State) : ℚ :=
  ((s.products.map Product.priceAmount).maximum).getD 0

/-- Source: `calculate_aov_score`. -/
def calculate_aov_score (s : State) (pid : Int) : Except String ℚ :=
  match find_product s pid with
  | none => .error "IndexError"
  | some p =>
    let all_prices := s.products.map Product.priceAmount
    let price := p.priceAmount
    let price_percentile :=
      ((all_prices.filter (fun x => decide (x ≤ price))).length : ℚ)
        / (all_prices.length : ℚ)
    let compare_price :=
      if p.compareAtPriceAmount = 0 then price else p.compareAtPriceAmount
    let margin :=
      if price < compare_price then (compare_price - price) / compare_price
      else 0.5
    let historical_sales := total_quantity s pid * price
    let max_historical_sales := ((s.orders.map Order.quantity).sum) * max_price s
    let historical_sales_normalized :=
      if 0 < max_historical_sales then historical_sales / max_historical_sales
      else 0
    .ok (0.5 * price_percentile + 0.3 * margin
      + 0.2 * historical_sales_normalized)

/-- Source: `products_df['variants.edges.node.inventoryQuantity'].max()`. -/
def max_stock (s : State) : Int :=
  ((s.products.map Product.inventoryQuantity).maximum).getD 0

/-- Source: `orders_df.groupby('product_id').size()`: row count per distinct
product id. -/
def orders_count_per_pid (s : State) : List Nat :=
  (order_pids s).map (fun k => (s.orders.filter (fun o => o.product_id == k)).length)

/-- Source: `orders_df.groupby('product_id').size().max()` (0 when there are no
orders, in which case the Python NaN also fails the `> 0` guard). -/
def max_group_size (s : State) : Nat :=
  ((orders_count_per_pid s).maximum).getD 0

/-- Source: `calculate_sell_through_score`. -/
def calculate_sell_through_score (s : State) (now : Int) (pid : Int) :
    Except String ℚ :=
  match find_product s pid with
  | none => .error "IndexError"
  | some p =>
    let days_in_stock := days_between p.createdAt now
    let days_normalized := min ((days_in_stock : ℚ) / 365) 1
    let stock_level_normalized : ℚ :=
      1 - (if 0 < max_stock s then
        (p.inventoryQuantity : ℚ) / (max_stock s : ℚ) else 0)
    let recent_count := (s.orders.filter
      (fun o => decide (o.product_id = pid ∧
        now - 30 * secondsPerDay < o.created_at))).length
    let sales_velocity := (recent_count : ℚ) / 30
    let max_velocity := (max_group_size s : ℚ) / 30
    let velocity_normalized :=
      if 0 < max_velocity then sales_velocity / max_velocity else 0
    .ok (0.4 * days_normalized + 0.4 * stock_level_normalized
      + 0.2 * velocity_normalized)

/-- Source: `products_df['viewCount'].max()` (pandas skips missing values). -/
def max_views (s : State) : ℚ :=
  ((s.products.filterMap Product.viewCount).maximum).getD 0

/-- Source: `products_df.get('averageTimeOnPage', pd.Series([0])).max()`. -/
def max_time_on_page (s : State) : ℚ :=
  ((s.products.filterMap Product.averageTimeOnPage).maximum).getD 0

/-- Source: `calculate_traffic_score`.  `product['viewCount']` raises when the
column is absent (table-wide in pandas, so the `viewCount = none` branch is
faithful on tables whose rows carry the field uniformly); `clicks` and
`averageTimeOnPage` are read with `.get(..., 0)` and default to 0. -/
def calculate_traffic_score (s : State) (pid : Int) : Except String ℚ :=
  match find_product s pid with
  | none => .error "IndexError"
  | some p =>
    match p.viewCount with
    | none => .error "KeyError"
    | some view_count =>
      let view_score := if 0 < max_views s then view_count / max_views s else 0
      let clicks := p.clicks.getD 0
      let ctr := clicks / max view_count 1
      let time_on_page := p.averageTimeOnPage.getD 0
      let time_score :=
        if 0 < max_time_on_page s then time_on_page / max_time_on_page s else 0
      .ok (0.6 * view_score + 0.25 * ctr + 0.15 * time_score)

/-- The four optimization sub-scores computed by `calculate_ranking_score`,
in source evaluation order (the first raised error propagates). -/
def score_parts (s : State) (now : Int) (pid : Int) :
    Except String (ℚ × ℚ × ℚ × ℚ) :=
  match calculate_conversion_rate_score s now pid with
  | .error e => .error e
  | .ok c =>
    match calculate_aov_score s pid with
    | .error e => .error e
    | .ok a =>
      match calculate_sell_through_score s now pid with
      | .error e => .error e
      | .ok st =>
        match calculate_traffic_score s pid with
        | .error e => .error e
        | .ok t => .ok (c, a, st, t)

/-- The dict stored into `self.ranking_scores[product_id]`. -/
def mk_entry (p : Product) (now : Int) (parts : ℚ × ℚ × ℚ × ℚ) : RankingEntry :=
  { score := (parts.1 + parts.2.1 + parts.2.2.1 + parts.2.2.2) / 4
  , updated_at := now
  , title := p.title
  , vendor := p.vendor
  , conversion_rate := parts.1
  , aov := parts.2.1
  , sell_through := parts.2.2.1
  , traffic := parts.2.2.2 }

/-- Python dict assignment `d[k] = v`: overwrite in place, else append. -/
def store : List (Int × RankingEntry) → Int → RankingEntry →
    List (Int × RankingEntry)
  | [], k, v => [(k, v)]
  | kv :: rest, k, v =>
    if kv.1 = k then (k, v) :: rest else kv :: store rest k v

/-- Source: `calculate_ranking_score`: computes the four sub-scores, stores the
entry and returns the total.  On an exception the state is unchanged (the
dict assignment comes after all four computations). -/
def calculate_ranking_score (s : State) (now : Int) (p : Product) :
    Except String (ℚ × State) :=
  match score_parts s now p.id with
  | .error e => .error e
  | .ok parts =>
    let entry := mk_entry p now parts
    .ok (entry.score,
      { s with ranking_scores := store s.ranking_scores p.id entry })

/-- The `for _, product in self.products_df.iterrows()` loop of
`update_all_rankings`: a raised exception propagates, stopping the
iteration; the second component records the exception, if any. -/
def run_products (now : Int) : State → List Product → State × Option String
  | s, [] => (s, none)
  | s, p :: ps =>
    match calculate_ranking_score s now p with
    | .ok qs => run_products now qs.2 ps
    | .error e => (s, some e)

/-- Source: `update_all_rankings`. -/
def update_all_rankings (s : State) (now : Int) : State × Option String :=
  run_products now s s.products

/-- Descending-score order used by `get_ranked_products`. -/
def score_desc (a b : Int × RankingEntry) : Prop := b.2.score ≤ a.2.score

instance : DecidableRel score_desc :=
  fun a b => inferInstanceAs (Decidable (b.2.score ≤ a.2.score))

instance : IsTotal (Int × RankingEntry) score_desc :=
  ⟨fun a b => le_total b.2.score a.2.score⟩

instance : IsTrans (Int × RankingEntry) score_desc :=
  ⟨fun _ _ _ h1 h2 => le_trans h2 h1⟩

/-- Source: `self.products_df[self.products_df['id'] == int(p[0])]['productType'].iloc[0]`:
raises when the ranked key has no matching product row. -/
def category_of (s : State) (pid : Int) : Except String String :=
  match find_product s pid with
  | some p => .ok p.productType
  | none => .error "IndexError"

/-- The category list comprehension of `get_ranked_products`: the product
type lookup is evaluated for every ranked entry, and the first missing
product row raises. -/
def filter_by_category (s : State) (c : String) :
    List (Int × RankingEntry) → Except String (List (Int × RankingEntry))
  | [] => .ok []
  | kv :: rest =>
    match category_of s kv.1 with
    | .error e => .error e
    | .ok t =>
      match filter_by_category s c rest with
      | .error e => .error e
      | .ok l => .ok (if t = c then kv :: l else l)

/-- The `if category:` step of `get_ranked_products`: a supplied non-empty
category runs the filtering comprehension, anything falsy keeps the list. -/
def query_step_category (s : State) (category : Option String)
    (ranked : List (Int × RankingEntry)) :
    Except String (List (Int × RankingEntry)) :=
  match category with
  | some c => if c = "" then .ok ranked else filter_by_category s c ranked
  | none => .ok ranked

/-- The `if vendor:` step of `get_ranked_products`. -/
def query_step_vendor (vendor : Option String)
    (l : List (Int × RankingEntry)) : List (Int × RankingEntry) :=
  match vendor with
  | some v => if v = "" then l else l.filter (fun kv => kv.2.vendor == v)
  | none => l

/-- The `if limit:` step of `get_ranked_products`. -/
def query_step_limit (limit : Option Nat)
    (l : List (Int × RankingEntry)) : List (Int × RankingEntry) :=
  match limit with
  | some n => if n = 0 then l else l.take n
  | none => l

/-- Source: `get_ranked_products(limit, category, vendor)`.  Python's
`if category:`, `if vendor:` and `if limit:` are falsy tests, so `""` and
`0` behave like an absent argument.  `sorted(...)` is a stable sort and
mutates nothing; the unchanged state is returned alongside the result. -/
def get_ranked_products (s : State) (limit : Option Nat)
    (category : Option String) (vendor : Option String) :
    Except String (List (Int × RankingEntry) × State) :=
  match query_step_category s category
      (List.insertionSort score_desc s.ranking_scores) with
  | .error e => .error e
  | .ok l1 => .ok (query_step_limit limit (query_step_vendor vendor l1), s)

/-- Merge-patch argument of `update_weights` (`self.weights.update(...)`). -/
structure WeightsPatch where
  new_in : Option ℚ
  bestseller : Option ℚ
  slow_mover : Option ℚ
  low_stock : Option ℚ
  trending : Option ℚ
  out_of_stock : Option ℚ
  sale_item : Option ℚ
deriving Repr, DecidableEq

/-- A patch touching no key. -/
def WeightsPatch.empty : WeightsPatch :=
  ⟨none, none, none, none, none, none, none⟩

/-- Source: `self.weights.update(new_weights)`: given keys replace, others remain. -/
def apply_weights_patch (w : Weights) (p : WeightsPatch) : Weights :=
  { new_in := p.new_in.getD w.new_in
  , bestseller := p.bestseller.getD w.bestseller
  , slow_mover := p.slow_mover.getD w.slow_mover
  , low_stock := p.low_stock.getD w.low_stock
  , trending := p.trending.getD w.trending
  , out_of_stock := p.out_of_stock.getD w.out_of_stock
  , sale_item := p.sale_item.getD w.sale_item }

/-- Merge-patch argument of `update_config` (`self.config.update(...)`). -/
structure ConfigPatch where
  new_product_days : Option Int
  bestseller_percentage : Option ℚ
  low_stock_threshold : Option Int
  trending_period_days : Option Int
  trending_threshold : Option ℚ
  sale_discount_threshold : Option ℚ
deriving Repr, DecidableEq

/-- Source: `self.config.update(new_config)`. -/
def apply_config_patch (c : Config) (p : ConfigPatch) : Config :=
  { new_product_days := p.new_product_days.getD c.new_product_days
  , bestseller_percentage := p.bestseller_percentage.getD c.bestseller_percentage
  , low_stock_threshold := p.low_stock_threshold.getD c.low_stock_threshold
  , trending_period_days := p.trending_period_days.getD c.trending_period_days
  , trending_threshold := p.trending_threshold.getD c.trending_threshold
  , sale_discount_threshold := p.sale_discount_threshold.getD c.sale_discount_threshold }

/-- Source: `update_weights`: merge the patch, then recompute all rankings. -/
def update_weights (s : State) (p : WeightsPatch) (now : Int) :
    State × Option String :=
  update_all_rankings { s with weights := apply_weights_patch s.weights p } now

/-- Source: `update_config`: merge the patch, then recompute all rankings. -/
def update_config (s : State) (p : ConfigPatch) (now : Int) :
    State × Option String :=
  update_all_rankings { s with config := apply_config_patch s.config p } now

/-- One externally triggerable engine operation. -/
inductive Op where
  | recompute (now : Int)
  | set_weights (p : WeightsPatch) (now : Int)
  | set_config (p : ConfigPatch) (now : Int)
  | query (limit : Option Nat) (category : Option String) (vendor : Option String)
deriving Repr, DecidableEq

/-- State effect of one operation.  A query raises or returns without any
prior mutation, so in either case the state is unchanged. -/
def apply_op (s : State) : Op → State
  | .recompute now => (update_all_rankings s now).1
  | .set_weights p now => (update_weights s p now).1
  | .set_config p now => (update_config s p now).1
  | .query limit category vendor =>
    match get_ranked_products s limit category vendor with
    | .ok r => r.2
    | .error _ => s

/-- Engine state right after `__init__` on the given loaded tables. -/
def init_state (products : List Product) (orders : List Order) : State :=
  { products := products, orders := orders, weights := default_weights,
    config := default_config, ranking_scores := [] }

/-- Folding a sequence of operations over a state. -/
def run_ops (s : State) (ops : List Op) : State :=
  ops.foldl apply_op s

/-! ## Concrete inputs for claim C4 -/
/-- Product of the spec's worked example: created today (age 0 days),
inventory 0, regular (compare-at) price 100, sale price 80. -/
def c4_product : Product :=
  ⟨1, "A", "VendorA", "TypeA", 0, 0, 80, 100, some 0, none, none⟩

/-- Engine state for claim C4: the example product, no orders, default
weights and config. -/
def c4_state : State := init_state [c4_product] []

/-- Order used by the C7 witness: 5 units sold inside the recent trending
window, nothing in the previous window. -/
def c7_order : Order := ⟨1, 5, -100⟩

/-- Engine state for the C7 witness. -/
def c7_state : State := init_state [] [c7_order]

/-! ## Concrete inputs for claim C1 -/
/-- First product of the C1 batch.  The `viewCount` column of this table is
absent, so every row carries `none` for it. -/
def c1_good : Product := ⟨1, "g", "v", "t", 0, 5, 10, 20, none, some 1, some 2⟩

/-- Second product of the C1 batch; `viewCount` is `none` like every other
row of the table. -/
def c1_bad : Product := ⟨2, "b", "v", "t", 0, 5, 10, 20, none, some 1, some 2⟩

/-- Third product of the C1 batch; `viewCount` is `none` like every other
row of the table. -/
def c1_after : Product := ⟨3, "a", "v", "t", 0, 5, 10, 20, none, some 1, some 2⟩

/-- Engine state for claim C1: a loadable three-product table whose CSV has
no `viewCount` column (so `viewCount` is uniformly `none`, the table-wide
column absence pandas realises); every product's scoring then raises
`KeyError` at the `viewCount` access. -/
def c1_state : State := init_state [c1_good, c1_bad, c1_after] []

/-! ## Concrete inputs for claim C3 -/
/-- Low-stock product for claim C3: inventory 5 lies in
`(0, low_stock_threshold]`. -/
def c3_product : Product := ⟨1, "p", "v", "t", 0, 5, 10, 20, some 4, some 1, some 2⟩

/-- Engine state for claim C3. -/
def c3_state : State := init_state [c3_product] []

/-- Single-key weight patch for claim C3: raise `low_stock` from its
default 8 by Δ = 1. -/
def c3_patch : WeightsPatch := ⟨none, none, none, some 9, none, none, none⟩

/-! ## Concrete inputs for claim C5 -/
/-- Product for claim C5 whose `viewCount` column is missing. -/
def c5_product : Product := ⟨1, "p", "v", "t", 0, 5, 10, 20, none, some 1, some 2⟩

/-- Engine state for claim C5. -/
def c5_state : State := init_state [c5_product] []

/-! ## Concrete inputs for claim C8 -/
/-- Stored ranking entry for claim C8. -/
def c8_entry : RankingEntry := ⟨1, 0, "t", "v", 0, 0, 0, 0⟩

/-- Engine state for claim C8 with one stored ranking entry. -/
def c8_state : State :=
  { products := [], orders := [], weights := default_weights,
    config := default_config, ranking_scores := [(1, c8_entry)] }

/-! ## Concrete inputs for claim C9 -/
/-- Product for claim C9. -/
def c9_product : Product := ⟨1, "p", "v", "t", 0, 5, 10, 20, some 4, some 1, some 2⟩

/-- Matched order row for claim C9 (product 1). -/
def c9_order : Order := ⟨1, 1, -100⟩

/-- Order row for claim C9 whose derived product id 999 matches no
product. -/
def c9_stray_order : Order := ⟨999, 9, -100⟩

/-- Engine state for claim C9 without the unmatched order row. -/
def c9_base_state : State := init_state [c9_product] [c9_order]

/-- Engine state for claim C9 that differs from `c9_base_state` only by the
added unmatched order row. -/
def c9_extra_state : State := init_state [c9_product] [c9_order, c9_stray_order]

/-- Keys of the stored ranking mapping all name product rows. -/
def ranking_keys_ok (s : State) : Prop :=
  ∀ kv ∈ s.ranking_scores, ∃ p ∈ s.products, p.id = kv.1

/-- Concrete state for the C6 witness: one order of quantity 5. -/
def c6_order : Order := ⟨1, 5, -100⟩

/-- Engine state for the C6 witness. -/
def c6_state : State := init_state [] [c6_order]

/-- Product for the C5 witness: view count present, clicks and time-on-page
missing. -/
def c5w_product : Product := ⟨1, "p", "v", "t", 0, 5, 10, 20, some 4, none, none⟩

/-- Engine state for the C5 witness. -/
def c5w_state : State := init_state [c5w_product] []

/-- First product for the C8 witness. -/
def c8w_p1 : Product := ⟨1, "a", "V", "Shoes", 0, 5, 10, 20, some 4, some 1, some 2⟩

/-- Second product for the C8 witness. -/
def c8w_p2 : Product := ⟨2, "b", "W", "Hats", 0, 5, 10, 20, some 4, some 1, some 2⟩

/-- Stored entry for product 1 in the C8 witness state. -/
def c8w_e1 : RankingEntry := ⟨2, 0, "a", "V", 0, 0, 0, 0⟩

/-- Stored entry for product 2 in the C8 witness state. -/
def c8w_e2 : RankingEntry := ⟨1, 0, "b", "W", 0, 0, 0, 0⟩

/-- Two-product, two-entry state for the C8 witness. -/
def c8w_state : State :=
  { products := [c8w_p1, c8w_p2], orders := [], weights := default_weights,
    config := default_config, ranking_scores := [(1, c8w_e1), (2, c8w_e2)] }

/-! ## Recomputation idempotence (claim C2) -/
/-- Re-timestamp an entry. -/
def set_updated (e : RankingEntry) (t : Int) : RankingEntry :=
  { e with updated_at := t }

/-- Forget the timestamp of an entry (normalise it to 0). -/
def erase_updated (e : RankingEntry) : RankingEntry :=
  { e with updated_at := 0 }

/-- Store a batch of entries in order. -/
def storeAll (l : List (Int × RankingEntry)) :
    List (Int × RankingEntry) → List (Int × RankingEntry)
  | [] => l
  | e :: es => storeAll (store l e.1 e.2) es

/-- The error outcome and entry batch produced by one recomputation pass,
as a pure function of the tables, weights, config and pass time. -/
def entries_for (s : State) (now : Int) :
    List Product → Option String × List (Int × RankingEntry)
  | [] => (none, [])
  | p :: ps =>
    match score_parts s now p.id with
    | .error e => (some e, [])
    | .ok parts =>
      ((entries_for s now ps).1, (p.id, mk_entry p now parts) :: (entries_for s now ps).2)

/-- Value at the last occurrence of a key in an entry batch. -/
def lookupLast (pid : Int) : List (Int × RankingEntry) → Option RankingEntry
  | [] => none
  | e :: es =>
    match lookupLast pid es with
    | some v => some v
    | none => if e.1 = pid then some e.2 else none

/-- Product for the C2 witness. -/
def c2w_product : Product := ⟨1, "p", "v", "t", 0, 5, 10, 20, some 4, some 1, some 2⟩

/-- Order for the C2 witness, solidly inside every window at both pass
times. -/
def c2w_order : Order := ⟨1, 2, -100⟩

/-- Engine state for the C2 witness. -/
def c2w_state : State := init_state [c2w_product] [c2w_order]

/-- Claim C4: for a product created today with inventory 0, regular price
100, sale price 80, no orders, under the default weights and config, the
factor calculators yield new_in = +5, out_of_stock = -50, sale_item = -10,
every other factor 0, and the sum of the factor scores equals -55. -/
theorem C4_factor_example :
    calculate_new_in_score c4_state 0 c4_product = 5 ∧
    calculate_stock_based_score c4_state c4_product = -50 ∧
    calculate_sale_item_score c4_state c4_product = -10 ∧
    calculate_bestseller_score c4_state 1 = 0 ∧
    calculate_slow_mover_score c4_state 0 1 = 0 ∧
    calculate_trending_score c4_state 0 1 = 0 ∧
    calculate_new_in_score c4_state 0 c4_product
      + calculate_bestseller_score c4_state 1
      + calculate_stock_based_score c4_state c4_product
      + calculate_sale_item_score c4_state c4_product
      + calculate_slow_mover_score c4_state 0 1
      + calculate_trending_score c4_state 0 1 = -55 := by
  norm_num [calculate_new_in_score, calculate_stock_based_score,
    calculate_sale_item_score, calculate_bestseller_score,
    calculate_slow_mover_score, calculate_trending_score,
    trending_recent_sales, trending_previous_sales, pandas_quantile,
    product_orders, total_quantity, order_pids, all_sales, mean_quantity,
    days_between, secondsPerDay, c4_state, c4_product, init_state,
    default_weights, default_config, List.filter, List.dedup,
    List.insertionSort]

/-- Claim C6: the bestseller factor equals the bestseller weight exactly
when the product has at least one order row and its summed quantity is at
or above the `1 - bestseller_percentage/100` quantile of the per-product
summed quantities, the quantile being taken over the distinct product ids
that occur in the order table (so only over ids with at least one order);
in every other case, including every product with no orders, it is 0. -/
theorem C6_bestseller_characterisation (s : State) (pid : Int) :
    (calculate_bestseller_score s pid =
      if (∃ o ∈ s.orders, o.product_id = pid) ∧
          pandas_quantile (all_sales s) (1 - s.config.bestseller_percentage / 100)
            ≤ total_quantity s pid
      then s.weights.bestseller else 0) ∧
    ∀ x ∈ order_pids s, ∃ o ∈ s.orders, o.product_id = x := by
  constructor
  · have key : ((product_orders s pid).length > 0) ↔
        (∃ o ∈ s.orders, o.product_id = pid) := by
      simp [product_orders, List.length_pos_iff_exists_mem]
    by_cases hA : ∃ o ∈ s.orders, o.product_id = pid
    · by_cases hB : pandas_quantile (all_sales s)
          (1 - s.config.bestseller_percentage / 100) ≤ total_quantity s pid
      · simp [calculate_bestseller_score, key, hA, hB]
      · simp [calculate_bestseller_score, key, hA, hB]
    · simp [calculate_bestseller_score, key, hA]
  · intro x hx
    simp [order_pids, List.mem_dedup, List.mem_map] at hx
    obtain ⟨o, ho, hid⟩ := hx
    exact ⟨o, ho, hid⟩

/-- Claim C7: with non-negative order quantities, both trending-window sums
are non-negative; when the previous window sums to 0 and the recent one is
positive the factor equals the trending weight (and the computation is
total, never a division error); when the previous window is positive the
factor takes the trending-weight branch exactly when recent/previous meets
the threshold; and when both windows are 0 the factor is 0. -/
theorem C7_trending_characterisation (s : State) (now pid : Int)
    (hq : ∀ o ∈ s.orders, 0 ≤ o.quantity) :
    0 ≤ trending_previous_sales s now pid ∧
    0 ≤ trending_recent_sales s now pid ∧
    (trending_previous_sales s now pid = 0 →
      0 < trending_recent_sales s now pid →
      calculate_trending_score s now pid = s.weights.trending) ∧
    (0 < trending_previous_sales s now pid →
      calculate_trending_score s now pid =
        if s.config.trending_threshold ≤
            trending_recent_sales s now pid / trending_previous_sales s now pid
        then s.weights.trending else 0) ∧
    (trending_previous_sales s now pid = 0 →
      trending_recent_sales s now pid = 0 →
      calculate_trending_score s now pid = 0) := by
  refine ⟨?_, ?_, ?_, ?_, ?_⟩
  · apply List.sum_nonneg
    intro x hx
    simp [trending_previous_sales, List.mem_map, List.mem_filter] at hx
    obtain ⟨o, ⟨ho, -⟩, rfl⟩ := hx
    exact hq o ho
  · apply List.sum_nonneg
    intro x hx
    simp [trending_recent_sales, List.mem_map, List.mem_filter] at hx
    obtain ⟨o, ⟨ho, -⟩, rfl⟩ := hx
    exact hq o ho
  · intro h0 hr
    simp [calculate_trending_score, h0, hr]
  · intro hp
    simp [calculate_trending_score, hp]
  · intro h0 hr
    simp [calculate_trending_score, h0, hr]

/-- Witness for C7: the spec's own example, previous-window sales 0 and
recent-window sales 5, yields the default trending weight 15. -/
theorem C7_trending_witness : calculate_trending_score c7_state 0 1 = 15 := by
  have h := (C7_trending_characterisation c7_state 0 1 (by
    intro o ho
    simp [c7_state, init_state, c7_order] at ho
    subst ho
    norm_num)).2.2.1
  have hp : trending_previous_sales c7_state 0 1 = 0 := by
    norm_num [trending_previous_sales, c7_state, c7_order, init_state,
      default_config, secondsPerDay, List.filter]
  have hr : (0:ℚ) < trending_recent_sales c7_state 0 1 := by
    norm_num [trending_recent_sales, c7_state, c7_order, init_state,
      default_config, secondsPerDay, List.filter]
  simpa [c7_state, init_state, default_weights] using h hp hr

/-- Counterexample to claim C1 as stated: over the loadable table of
`c1_state` (its `viewCount` column is absent, which pandas realises
table-wide), the `KeyError` raised while computing product 1's score aborts
the whole batch — the exception propagates out of `update_all_rankings`
and the remaining products 2 and 3 are never scored and get no stored
entry, so per-product failures are not isolated, logged or skipped. -/
theorem C1_counterexample :
    (update_all_rankings c1_state 0).2 = some "KeyError" ∧
    (update_all_rankings c1_state 0).1.ranking_scores.lookup 1 = none ∧
    (update_all_rankings c1_state 0).1.ranking_scores.lookup 2 = none ∧
    (update_all_rankings c1_state 0).1.ranking_scores.lookup 3 = none := by
  norm_num [update_all_rankings, run_products, calculate_ranking_score, score_parts,
    calculate_conversion_rate_score, calculate_aov_score, calculate_sell_through_score,
    calculate_traffic_score, calculate_bestseller_score, calculate_trending_score,
    trending_recent_sales, trending_previous_sales, pandas_quantile,
    find_product, product_orders, total_quantity, order_pids, all_sales,
    max_price, max_stock, max_views, max_time_on_page, max_group_size,
    orders_count_per_pid, mean_quantity, days_between, secondsPerDay,
    c1_state, c1_good, c1_bad, c1_after, init_state, default_weights, default_config,
    store, mk_entry, List.insertionSort, List.dedup, List.filter,
    List.maximum, List.argmax, List.argAux, List.filterMap]

/-- Counterexample to claim C3 as stated: raising the `low_stock` weight by
Δ = 1 via `update_weights` and recomputing leaves the low-stock product's
stored total score exactly unchanged — it is not increased by Δ, because
the stored total is the optimization-mode average, which never reads the
`low_stock` weight. -/
theorem C3_counterexample :
    ((update_weights c3_state c3_patch 0).1.ranking_scores.lookup 1).map
        RankingEntry.score
      = ((update_all_rankings c3_state 0).1.ranking_scores.lookup 1).map
        RankingEntry.score ∧
    ((update_weights c3_state c3_patch 0).1.ranking_scores.lookup 1).map
        RankingEntry.score
      ≠ ((update_all_rankings c3_state 0).1.ranking_scores.lookup 1).map
        (fun e => e.score + 1) := by
  norm_num [update_weights, apply_weights_patch, update_all_rankings,
    run_products, calculate_ranking_score, score_parts,
    calculate_conversion_rate_score, calculate_aov_score, calculate_sell_through_score,
    calculate_traffic_score, calculate_bestseller_score, calculate_trending_score,
    trending_recent_sales, trending_previous_sales, pandas_quantile,
    find_product, product_orders, total_quantity, order_pids, all_sales,
    max_price, max_stock, max_views, max_time_on_page, max_group_size,
    orders_count_per_pid, mean_quantity, days_between, secondsPerDay,
    c3_state, c3_product, c3_patch, init_state, default_weights, default_config,
    store, mk_entry, List.insertionSort, List.dedup, List.filter,
    List.maximum, List.argmax, List.argAux, List.filterMap]

/-- Counterexample to claim C5 as stated: a missing view count is not
treated as zero — both the traffic and the conversion-rate sub-score
computations raise (`product['viewCount']` is read without a default), and
the raised error propagates out of the full recomputation. -/
theorem C5_counterexample :
    calculate_traffic_score c5_state 1 = .error "KeyError" ∧
    calculate_conversion_rate_score c5_state 0 1 = .error "KeyError" ∧
    (update_all_rankings c5_state 0).2 = some "KeyError" := by
  norm_num [update_all_rankings, run_products, calculate_ranking_score, score_parts,
    calculate_conversion_rate_score, calculate_aov_score, calculate_sell_through_score,
    calculate_traffic_score, calculate_bestseller_score, calculate_trending_score,
    trending_recent_sales, trending_previous_sales, pandas_quantile,
    find_product, product_orders, total_quantity, order_pids, all_sales,
    max_price, max_stock, max_views, max_time_on_page, max_group_size,
    orders_count_per_pid, mean_quantity, days_between, secondsPerDay,
    c5_state, c5_product, init_state, default_weights, default_config,
    store, mk_entry, List.insertionSort, List.dedup, List.filter,
    List.maximum, List.argmax, List.argAux, List.filterMap]

/-- Counterexample to claim C8 as stated: with `limit = 0` supplied, the
query returns 1 entry, not at most 0 — Python's `if limit:` treats the
falsy 0 as "no limit". -/
theorem C8_counterexample :
    (get_ranked_products c8_state (some 0) none none).toOption.map
        (fun r => r.1.length) = some 1 ∧
    ¬ ((1:ℕ) ≤ 0) := by
  norm_num [get_ranked_products, query_step_category, query_step_vendor,
    query_step_limit, c8_state, c8_entry, List.insertionSort, Except.toOption]

/-- Counterexample to claim C9 as stated: adding a single order row whose
derived product id matches no product changes product 1's AOV sub-score and
its stored total score — the unmatched row is not inert, because it enters
the global aggregates (total order quantity, bestseller quantile
distribution). -/
theorem C9_counterexample :
    calculate_aov_score c9_extra_state 1 ≠ calculate_aov_score c9_base_state 1 ∧
    ((update_all_rankings c9_extra_state 0).1.ranking_scores.lookup 1).map
        RankingEntry.score
      ≠ ((update_all_rankings c9_base_state 0).1.ranking_scores.lookup 1).map
        RankingEntry.score := by
  norm_num [update_all_rankings, run_products, calculate_ranking_score, score_parts,
    calculate_conversion_rate_score, calculate_aov_score, calculate_sell_through_score,
    calculate_traffic_score, calculate_bestseller_score, calculate_trending_score,
    trending_recent_sales, trending_previous_sales, pandas_quantile,
    find_product, product_orders, total_quantity, order_pids, all_sales,
    max_price, max_stock, max_views, max_time_on_page, max_group_size,
    orders_count_per_pid, mean_quantity, days_between, secondsPerDay,
    c9_base_state, c9_extra_state, c9_product, c9_order, c9_stray_order,
    init_state, default_weights, default_config,
    store, mk_entry, List.insertionSort,
    List.maximum, List.argmax, List.argAux, List.filterMap_cons, Int.reduceBEq]

/-- Claim C10: `get_ranked_products` treats any falsy argument as absent —
`limit = 0` returns all entries rather than zero entries, and an empty
category or vendor string applies no filter; each such call coincides with
the call where the argument is omitted. -/
theorem C10_falsy_arguments (s : State) :
    get_ranked_products s (some 0) none none
        = get_ranked_products s none none none ∧
    get_ranked_products s none (some "") none
        = get_ranked_products s none none none ∧
    get_ranked_products s none none (some "")
        = get_ranked_products s none none none ∧
    get_ranked_products s (some 0) (some "") (some "")
        = get_ranked_products s none none none :=
  ⟨rfl, rfl, rfl, rfl⟩

/-! ## Association-list lemmas for the stored ranking mapping -/
theorem lookup_cons_entry (a k : Int) (v : RankingEntry)
    (t : List (Int × RankingEntry)) :
    ((k, v) :: t).lookup a = if a = k then some v else t.lookup a := by
  by_cases h : a = k
  · rw [List.lookup_cons, show (a == k) = true from beq_iff_eq.mpr h, if_pos h]
  · rw [List.lookup_cons, show (a == k) = false from beq_eq_false_iff_ne.mpr h,
      if_neg h]

theorem store_cons (a : Int) (b : RankingEntry) (t : List (Int × RankingEntry))
    (k : Int) (v : RankingEntry) :
    store ((a, b) :: t) k v =
      if a = k then (k, v) :: t else (a, b) :: store t k v := rfl

theorem lookup_store (l : List (Int × RankingEntry)) (k : Int) (v : RankingEntry)
    (k' : Int) :
    (store l k v).lookup k' = if k' = k then some v else l.lookup k' := by
  induction l with
  | nil => simp [store, lookup_cons_entry]
  | cons kv t ih =>
    rcases kv with ⟨a, b⟩
    by_cases h1 : a = k
    · rw [store_cons, if_pos h1, lookup_cons_entry, lookup_cons_entry]
      by_cases h2 : k' = k
      · rw [if_pos h2, if_pos h2]
      · rw [if_neg h2, if_neg h2, if_neg (fun hk => h2 (hk.trans h1))]
    · rw [store_cons, if_neg h1, lookup_cons_entry, lookup_cons_entry, ih]
      by_cases h2 : k' = a
      · rw [if_pos h2, if_pos h2, if_neg (fun hk => h1 (h2.symm.trans hk))]
      · rw [if_neg h2, if_neg h2]

/-- On success, `calculate_ranking_score` changes only `ranking_scores`,
storing the entry built from the computed sub-scores. -/
theorem calculate_ranking_score_ok {s : State} {now : Int} {p : Product}
    {q : ℚ} {s' : State}
    (h : calculate_ranking_score s now p = .ok (q, s')) :
    ∃ parts, score_parts s now p.id = .ok parts ∧
      s' = { s with ranking_scores := store s.ranking_scores p.id (mk_entry p now parts) } := by
  unfold calculate_ranking_score at h
  cases hsp : score_parts s now p.id with
  | error e => rw [hsp] at h; cases h
  | ok parts =>
    rw [hsp] at h
    refine ⟨parts, rfl, ?_⟩
    cases h
    rfl

/-- An entry present before the iteration is still present afterwards. -/
theorem run_products_preserves_lookup (now : Int) :
    ∀ (ps : List Product) (s : State) (k : Int),
    (s.ranking_scores.lookup k).isSome = true →
    (((run_products now s ps).1.ranking_scores.lookup k).isSome = true) := by
  intro ps
  induction ps with
  | nil => intro s k hk; simpa [run_products] using hk
  | cons p t ih =>
    intro s k hk
    rw [run_products]
    cases hc : calculate_ranking_score s now p with
    | error e => simpa using hk
    | ok qs =>
      rcases qs with ⟨q, s'⟩
      obtain ⟨parts, -, rfl⟩ := calculate_ranking_score_ok hc
      apply ih
      rw [lookup_store]
      by_cases hkp : k = p.id
      · rw [if_pos hkp]
        rfl
      · rw [if_neg hkp]
        exact hk

/-- The iteration of `update_all_rankings` processes a prefix of the
product list: every product of that prefix gets a stored entry, and the
run ends without error exactly when the prefix is the whole list. -/
theorem run_products_stop_spec (now : Int) :
    ∀ (ps : List Product) (s : State), ∃ done rest, ps = done ++ rest ∧
    (∀ p ∈ done,
      (((run_products now s ps).1.ranking_scores.lookup p.id).isSome = true)) ∧
    ((run_products now s ps).2 = none ↔ rest = []) := by
  intro ps
  induction ps with
  | nil =>
    intro s
    exact ⟨[], [], rfl, by simp, by simp [run_products]⟩
  | cons p t ih =>
    intro s
    rw [run_products]
    cases hc : calculate_ranking_score s now p with
    | error e =>
      refine ⟨[], p :: t, rfl, by simp, by simp⟩
    | ok qs =>
      rcases qs with ⟨q, s'⟩
      obtain ⟨done, rest, hsplit, hdone, herr⟩ := ih s'
      refine ⟨p :: done, rest, by rw [hsplit]; rfl, ?_, herr⟩
      intro x hx
      rcases List.mem_cons.mp hx with hx | hx
      · subst hx
        obtain ⟨parts, -, rfl⟩ := calculate_ranking_score_ok hc
        apply run_products_preserves_lookup
        rw [lookup_store, if_pos rfl]
        rfl
      · exact hdone x hx

/-- Claim C1 (amended): a failure raised while computing one product's
score during `update_all_rankings` aborts the batch — iteration stops at
the first failing product, so the scored-and-stored products form a prefix
of the table, the remaining products are not scored, and the run finishes
without error exactly when that prefix is the whole table.  (The claim's
original statement, that the remaining products are still scored, is
refuted by `C1_counterexample`.) -/
theorem C1_failure_aborts_batch (s : State) (now : Int) :
    ∃ done rest, s.products = done ++ rest ∧
    (∀ p ∈ done,
      (((update_all_rankings s now).1.ranking_scores.lookup p.id).isSome = true)) ∧
    ((update_all_rankings s now).2 = none ↔ rest = []) :=
  run_products_stop_spec now s.products s

/-! ## Key invariant and failure characterisation (claim C9) -/
theorem mem_store {kv : Int × RankingEntry} :
    ∀ {l : List (Int × RankingEntry)} {k : Int} {v : RankingEntry},
    kv ∈ store l k v → kv = (k, v) ∨ kv ∈ l := by
  intro l
  induction l with
  | nil => intro k v h; simpa [store] using h
  | cons ab t ih =>
    intro k v h
    rcases ab with ⟨a, b⟩
    rw [store_cons] at h
    by_cases h1 : a = k
    · rw [if_pos h1] at h
      rcases List.mem_cons.mp h with h | h
      · exact Or.inl h
      · exact Or.inr (List.mem_cons_of_mem _ h)
    · rw [if_neg h1] at h
      rcases List.mem_cons.mp h with h | h
      · exact Or.inr (h ▸ List.mem_cons_self _ _)
      · rcases ih h with h | h
        · exact Or.inl h
        · exact Or.inr (List.mem_cons_of_mem _ h)

theorem run_products_keys_ok (now : Int) :
    ∀ (ps : List Product) (s : State), (∀ p ∈ ps, p ∈ s.products) →
    ranking_keys_ok s → ranking_keys_ok (run_products now s ps).1 := by
  intro ps
  induction ps with
  | nil => intro s _ hs; simpa [run_products] using hs
  | cons p t ih =>
    intro s hmem hs
    rw [run_products]
    cases hc : calculate_ranking_score s now p with
    | error e => exact hs
    | ok qs =>
      rcases qs with ⟨q, s'⟩
      obtain ⟨parts, -, rfl⟩ := calculate_ranking_score_ok hc
      apply ih
      · intro x hx
        exact hmem x (List.mem_cons_of_mem _ hx)
      · intro kv hkv
        rcases mem_store hkv with h | h
        · exact ⟨p, hmem p (List.mem_cons_self _ _), by rw [h]⟩
        · exact hs kv h

/-- A successful query returns the unchanged engine state. -/
theorem get_ranked_products_state {s : State} {limit : Option Nat}
    {category vendor : Option String} {r : List (Int × RankingEntry) × State}
    (h : get_ranked_products s limit category vendor = .ok r) : r.2 = s := by
  unfold get_ranked_products at h
  split at h
  · cases h
  · cases h
    rfl

theorem apply_op_keys_ok (s : State) (op : Op) :
    ranking_keys_ok s → ranking_keys_ok (apply_op s op) := by
  intro hs
  cases op with
  | recompute now =>
    exact run_products_keys_ok now s.products s (fun p hp => hp) hs
  | set_weights p now =>
    exact run_products_keys_ok now s.products _ (fun p hp => hp) hs
  | set_config p now =>
    exact run_products_keys_ok now s.products _ (fun p hp => hp) hs
  | query limit category vendor =>
    simp only [apply_op]
    cases hg : get_ranked_products s limit category vendor with
    | error e => exact hs
    | ok r =>
      show ranking_keys_ok r.2
      rw [get_ranked_products_state hg]
      exact hs

theorem run_ops_keys_ok :
    ∀ (ops : List Op) (s : State), ranking_keys_ok s →
    ranking_keys_ok (run_ops s ops) := by
  intro ops
  induction ops with
  | nil => intro s hs; exact hs
  | cons op t ih =>
    intro s hs
    exact ih _ (apply_op_keys_ok s op hs)

/-- Scoring a product id fails exactly when its product row is missing or
lacks a view count, or one of the two legacy weights used as normalisers is
zero; in particular the order table never causes a failure. -/
theorem score_parts_ok_iff (s : State) (now pid : Int) :
    (∃ x, score_parts s now pid = Except.ok x) ↔
      ((∃ p, find_product s pid = some p ∧ p.viewCount.isSome = true) ∧
        s.weights.bestseller ≠ 0 ∧ s.weights.trending ≠ 0) := by
  by_cases hb : s.weights.bestseller = 0
  · simp [score_parts, calculate_conversion_rate_score, hb]
  · by_cases ht : s.weights.trending = 0
    · simp [score_parts, calculate_conversion_rate_score, hb, ht]
    · cases hf : find_product s pid with
      | none =>
        simp [score_parts, calculate_conversion_rate_score, hf, hb, ht]
      | some p =>
        cases hv : p.viewCount with
        | none =>
          simp [score_parts, calculate_conversion_rate_score, hf, hv, hb, ht]
        | some v =>
          simp [score_parts, calculate_conversion_rate_score, calculate_aov_score,
            calculate_sell_through_score, calculate_traffic_score, hf, hv, hb, ht]

/-- Claim C9 (amended): after any operation sequence from a loaded table,
every key of the ranking mapping names a product row; and scoring can fail
only because of the product row or the zero-weight guards — never because
of an order row, matched or not.  (The claim's further assertion that an
unmatched order row contributes zero to every factor and sub-score is
refuted by `C9_counterexample`.) -/
theorem C9_invariant_and_failure :
    (∀ (products : List Product) (orders : List Order) (ops : List Op),
      ∀ kv ∈ (run_ops (init_state products orders) ops).ranking_scores,
        ∃ p ∈ (run_ops (init_state products orders) ops).products, p.id = kv.1) ∧
    (∀ (s : State) (now pid : Int),
      (∃ x, score_parts s now pid = Except.ok x) ↔
        ((∃ p, find_product s pid = some p ∧ p.viewCount.isSome = true) ∧
          s.weights.bestseller ≠ 0 ∧ s.weights.trending ≠ 0)) := by
  constructor
  · intro products orders ops
    exact run_ops_keys_ok ops (init_state products orders) (by
      intro kv hkv
      simp [init_state] at hkv)
  · exact score_parts_ok_iff

/-- Witness for C9: on the concrete base state, the failure
characterisation yields a successful scoring of product 1. -/
theorem C9_witness : ∃ x, score_parts c9_base_state 0 1 = Except.ok x := by
  apply (C9_invariant_and_failure.2 c9_base_state 0 1).mpr
  refine ⟨⟨c9_product, ?_, rfl⟩, ?_, ?_⟩
  · norm_num [find_product, c9_base_state, c9_product, init_state]
  · norm_num [c9_base_state, init_state, default_weights]
  · norm_num [c9_base_state, init_state, default_weights]

/-- Witness for C1: the prefix decomposition applies to the concrete
three-product batch of `C1_counterexample`. -/
theorem C1_witness :
    ∃ done rest, c1_state.products = done ++ rest ∧
    (∀ p ∈ done,
      (((update_all_rankings c1_state 0).1.ranking_scores.lookup p.id).isSome = true)) ∧
    ((update_all_rankings c1_state 0).2 = none ↔ rest = []) :=
  C1_failure_aborts_batch c1_state 0

/-- Witness for C6: on the concrete state the characterisation evaluates
the bestseller factor of product 1 to the default bestseller weight 10. -/
theorem C6_witness : calculate_bestseller_score c6_state 1 = 10 := by
  rw [(C6_bestseller_characterisation c6_state 1).1]
  rw [if_pos]
  · norm_num [c6_state, init_state, default_weights]
  constructor
  · exact ⟨c6_order, by norm_num [c6_state, init_state], rfl⟩
  · norm_num [pandas_quantile, all_sales, order_pids, total_quantity,
      product_orders, c6_state, c6_order, init_state, default_config,
      List.insertionSort, List.orderedInsert]

/-- Claim C5 (amended): for a product whose view count is present, missing
clicks and time-on-page fields degrade to zero — the traffic sub-score
completes and reduces to the view-count signal alone (the click-through
and time-on-page signals contribute exactly 0), and the conversion-rate
sub-score completes as well.  (A missing view count instead raises, see
`C5_counterexample`.) -/
theorem C5_optional_fields (s : State) (now pid : Int) (p : Product) (v : ℚ)
    (hfind : find_product s pid = some p)
    (hview : p.viewCount = some v)
    (hclicks : p.clicks = none)
    (htop : p.averageTimeOnPage = none)
    (hb : s.weights.bestseller ≠ 0) (ht : s.weights.trending ≠ 0) :
    calculate_traffic_score s pid =
      .ok (0.6 * (if 0 < max_views s then v / max_views s else 0)) ∧
    (∃ q, calculate_conversion_rate_score s now pid = Except.ok q) := by
  constructor
  · simp [calculate_traffic_score, hfind, hview, hclicks, htop, zero_div, ite_self]
  · simp [calculate_conversion_rate_score, hfind, hview, hb, ht]

/-- Witness for C5 at a concrete state. -/
theorem C5_witness :
    calculate_traffic_score c5w_state 1 =
      .ok (0.6 * (if 0 < max_views c5w_state then 4 / max_views c5w_state else 0)) ∧
    (∃ q, calculate_conversion_rate_score c5w_state 0 1 = Except.ok q) := by
  apply C5_optional_fields c5w_state 0 1 c5w_product 4
  · norm_num [find_product, c5w_state, c5w_product, init_state]
  · rfl
  · rfl
  · rfl
  · norm_num [c5w_state, init_state, default_weights]
  · norm_num [c5w_state, init_state, default_weights]

/-! ## Weight-congruence machinery (claim C3) -/
theorem calculate_bestseller_score_weights_congr (s : State) (w' : Weights)
    (pid : Int) (hb : w'.bestseller = s.weights.bestseller) :
    calculate_bestseller_score { s with weights := w' } pid
      = calculate_bestseller_score s pid := by
  simp only [calculate_bestseller_score, hb]
  rfl

theorem calculate_trending_score_weights_congr (s : State) (w' : Weights)
    (now pid : Int) (ht : w'.trending = s.weights.trending) :
    calculate_trending_score { s with weights := w' } now pid
      = calculate_trending_score s now pid := by
  simp only [calculate_trending_score, ht]
  rfl

/-- The optimization sub-scores read the legacy weights only through the
bestseller and trending entries. -/
theorem score_parts_weights_congr (s : State) (w' : Weights) (now pid : Int)
    (hb : w'.bestseller = s.weights.bestseller)
    (ht : w'.trending = s.weights.trending) :
    score_parts { s with weights := w' } now pid = score_parts s now pid := by
  have h1 := calculate_bestseller_score_weights_congr s w' pid hb
  have h2 := calculate_trending_score_weights_congr s w' now pid ht
  simp only [score_parts, calculate_conversion_rate_score, hb, ht, h1, h2]
  rfl

/-- Two states with the same tables, config and stored mapping whose
sub-score computations agree produce the same mapping and error under the
recomputation loop. -/
theorem run_products_rs_congr (now : Int) :
    ∀ (ps : List Product) (s t : State),
    s.products = t.products → s.orders = t.orders → s.config = t.config →
    s.ranking_scores = t.ranking_scores →
    (∀ pid, score_parts s now pid = score_parts t now pid) →
    (run_products now s ps).1.ranking_scores
        = (run_products now t ps).1.ranking_scores ∧
    (run_products now s ps).2 = (run_products now t ps).2 := by
  intro ps
  induction ps with
  | nil => intro s t hp ho hc hrs hsp; exact ⟨hrs, rfl⟩
  | cons p rest ih =>
    intro s t hp ho hc hrs hsp
    simp only [run_products, calculate_ranking_score, hsp p.id]
    cases hsp2 : score_parts t now p.id with
    | error e => exact ⟨hrs, rfl⟩
    | ok parts =>
      dsimp only
      apply ih
      · exact hp
      · exact ho
      · exact hc
      · simp only [hrs]
      · intro pid
        calc score_parts { s with ranking_scores := store s.ranking_scores p.id (mk_entry p now parts) } now pid
            = score_parts s now pid := rfl
          _ = score_parts t now pid := hsp pid
          _ = score_parts { t with ranking_scores := store t.ranking_scores p.id (mk_entry p now parts) } now pid := rfl

/-- Claim C3 (amended): patching only the `low_stock` weight and letting
`update_weights` recompute yields exactly the stored mapping and error
outcome of a plain recomputation with the old weights — no product's total
score changes, because the stored total is the optimization average, which
never reads `low_stock`; only the legacy stock factor calculator changes,
and for a low-stock product it changes by exactly the weight difference.
(The claim's assertion that every low-stock product's total rises by Δ is
refuted by `C3_counterexample`.) -/
theorem C3_low_stock_weight_isolated (s : State) (v : ℚ) (now : Int) (p : Product)
    (hp1 : 0 < p.inventoryQuantity)
    (hp2 : p.inventoryQuantity ≤ s.config.low_stock_threshold) :
    (update_weights s ⟨none, none, none, some v, none, none, none⟩ now).1.ranking_scores
        = (update_all_rankings s now).1.ranking_scores ∧
    (update_weights s ⟨none, none, none, some v, none, none, none⟩ now).2
        = (update_all_rankings s now).2 ∧
    calculate_stock_based_score { s with weights := apply_weights_patch s.weights ⟨none, none, none, some v, none, none, none⟩ } p
        = calculate_stock_based_score s p + (v - s.weights.low_stock) := by
  have hcong := run_products_rs_congr now s.products
    { s with weights := apply_weights_patch s.weights ⟨none, none, none, some v, none, none, none⟩ }
    s rfl rfl rfl rfl
    (fun pid => score_parts_weights_congr s _ now pid rfl rfl)
  refine ⟨hcong.1, hcong.2, ?_⟩
  rw [calculate_stock_based_score, calculate_stock_based_score]
  rw [if_neg (not_le.mpr hp1), if_neg (not_le.mpr hp1), if_pos hp2, if_pos hp2]
  show v = s.weights.low_stock + (v - s.weights.low_stock)
  ring

/-- Witness for C3 at the concrete low-stock state of
`C3_counterexample`. -/
theorem C3_witness :
    (update_weights c3_state ⟨none, none, none, some 9, none, none, none⟩ 0).1.ranking_scores
        = (update_all_rankings c3_state 0).1.ranking_scores ∧
    (update_weights c3_state ⟨none, none, none, some 9, none, none, none⟩ 0).2
        = (update_all_rankings c3_state 0).2 ∧
    calculate_stock_based_score { c3_state with weights := apply_weights_patch c3_state.weights ⟨none, none, none, some 9, none, none, none⟩ } c3_product
        = calculate_stock_based_score c3_state c3_product + (9 - c3_state.weights.low_stock) :=
  C3_low_stock_weight_isolated c3_state 9 0 c3_product
    (by norm_num [c3_product])
    (by norm_num [c3_state, c3_product, init_state, default_config])

/-! ## Query behaviour (claim C8) -/
theorem filter_by_category_ok (s : State) (c : String) :
    ∀ l : List (Int × RankingEntry),
    (∀ kv ∈ l, (find_product s kv.1).isSome = true) →
    ∃ l', filter_by_category s c l = .ok l' ∧ l'.Sublist l ∧
      ∀ kv ∈ l', category_of s kv.1 = .ok c := by
  intro l
  induction l with
  | nil => intro _; exact ⟨[], rfl, List.Sublist.refl _, by simp⟩
  | cons kv rest ih =>
    intro hk
    obtain ⟨p, hp⟩ : ∃ p, find_product s kv.1 = some p := by
      have hh := hk kv (List.mem_cons_self _ _)
      cases hfp : find_product s kv.1 with
      | none => rw [hfp] at hh; cases hh
      | some p => exact ⟨p, rfl⟩
    obtain ⟨l', h1, h2, h3⟩ := ih (fun x hx => hk x (List.mem_cons_of_mem _ hx))
    by_cases hpc : p.productType = c
    · refine ⟨kv :: l', ?_, h2.cons₂ _, ?_⟩
      · simp only [filter_by_category, category_of, hp, h1]
        rw [if_pos hpc]
      · intro x hx
        rcases List.mem_cons.mp hx with hx | hx
        · subst hx
          simp only [category_of, hp, hpc]
        · exact h3 x hx
    · refine ⟨l', ?_, h2.cons _, h3⟩
      simp only [filter_by_category, category_of, hp, h1]
      rw [if_neg hpc]

theorem query_step_category_ok (s : State) (category : Option String)
    (ranked : List (Int × RankingEntry))
    (hk : ∀ kv ∈ ranked, (find_product s kv.1).isSome = true) :
    ∃ l1, query_step_category s category ranked = .ok l1 ∧ l1.Sublist ranked ∧
      (∀ c, category = some c → c ≠ "" → ∀ kv ∈ l1, category_of s kv.1 = .ok c) := by
  cases category with
  | none =>
    exact ⟨ranked, rfl, List.Sublist.refl _, fun c hc => by cases hc⟩
  | some c =>
    by_cases hc : c = ""
    · subst hc
      exact ⟨ranked, by simp [query_step_category], List.Sublist.refl _,
        fun c' hc' hne => by cases hc'; exact absurd rfl hne⟩
    · obtain ⟨l', h1, h2, h3⟩ := filter_by_category_ok s c ranked hk
      exact ⟨l', by simp [query_step_category, hc, h1], h2,
        fun c' hc' hne kv hkv => by cases hc'; exact h3 kv hkv⟩

theorem query_step_vendor_spec (vendor : Option String)
    (l : List (Int × RankingEntry)) :
    (query_step_vendor vendor l).Sublist l ∧
    (∀ v, vendor = some v → v ≠ "" →
      ∀ kv ∈ query_step_vendor vendor l, kv.2.vendor = v) := by
  cases vendor with
  | none => exact ⟨List.Sublist.refl _, fun v hv => by cases hv⟩
  | some v =>
    by_cases hv : v = ""
    · subst hv
      refine ⟨by simp [query_step_vendor], ?_⟩
      intro v' hv' hne
      cases hv'
      exact absurd rfl hne
    · refine ⟨?_, ?_⟩
      · simp only [query_step_vendor, if_neg hv]
        exact List.filter_sublist _
      · intro v' hv' hne kv hkv
        cases hv'
        simp only [query_step_vendor, if_neg hv] at hkv
        have := List.of_mem_filter hkv
        simpa using this

theorem query_step_limit_spec (limit : Option Nat)
    (l : List (Int × RankingEntry)) :
    (query_step_limit limit l).Sublist l ∧
    (∀ n, limit = some n → n ≠ 0 → (query_step_limit limit l).length ≤ n) := by
  cases limit with
  | none => exact ⟨List.Sublist.refl _, fun n hn => by cases hn⟩
  | some n =>
    by_cases hn : n = 0
    · subst hn
      refine ⟨by simp [query_step_limit], ?_⟩
      intro n' hn' hne
      cases hn'
      exact absurd rfl hne
    · refine ⟨?_, ?_⟩
      · simp only [query_step_limit, if_neg hn]
        exact List.take_sublist _ _
      · intro n' hn' hne
        cases hn'
        simp [query_step_limit, if_neg hn, List.length_take]

/-- Claim C8 (amended): when every ranked key has a product row, the query
succeeds, returns the unchanged state, and its result list is sorted in
descending score order, contains only exact category matches when a
non-empty category is supplied, only exact vendor matches when a non-empty
vendor is supplied, and at most `n` entries when a non-zero limit `n` is
supplied.  (The claim's blanket "at most limit entries when limit is
supplied" fails for the falsy limit 0, see `C8_counterexample`.) -/
theorem C8_query_behaviour (s : State) (limit : Option Nat)
    (category vendor : Option String)
    (hkeys : ∀ kv ∈ s.ranking_scores, (find_product s kv.1).isSome = true) :
    ∃ l, get_ranked_products s limit category vendor = .ok (l, s) ∧
      List.Sorted score_desc l ∧
      (∀ c, category = some c → c ≠ "" → ∀ kv ∈ l, category_of s kv.1 = .ok c) ∧
      (∀ v, vendor = some v → v ≠ "" → ∀ kv ∈ l, kv.2.vendor = v) ∧
      (∀ n, limit = some n → n ≠ 0 → l.length ≤ n) := by
  have hsorted0 :
      List.Sorted score_desc (List.insertionSort score_desc s.ranking_scores) :=
    List.sorted_insertionSort score_desc _
  obtain ⟨l1, hl1, hl1sub, hl1cat⟩ := query_step_category_ok s category
    (List.insertionSort score_desc s.ranking_scores)
    (fun kv hkv => hkeys kv
      ((List.perm_insertionSort score_desc s.ranking_scores).mem_iff.mp hkv))
  obtain ⟨hvsub, hven⟩ := query_step_vendor_spec vendor l1
  obtain ⟨hlsub, hlen⟩ := query_step_limit_spec limit (query_step_vendor vendor l1)
  refine ⟨query_step_limit limit (query_step_vendor vendor l1), ?_, ?_, ?_, ?_, hlen⟩
  · unfold get_ranked_products
    rw [hl1]
  · exact List.Pairwise.sublist ((hlsub.trans hvsub).trans hl1sub) hsorted0
  · intro c hc hne kv hkv
    exact hl1cat c hc hne kv (hvsub.subset (hlsub.subset hkv))
  · intro v hv hne kv hkv
    exact hven v hv hne kv (hlsub.subset hkv)

/-- Witness for C8 at a concrete state and concrete query arguments. -/
theorem C8_witness :
    ∃ l, get_ranked_products c8w_state (some 1) (some "Shoes") (some "V")
        = .ok (l, c8w_state) ∧
      List.Sorted score_desc l ∧
      (∀ c, (some "Shoes" : Option String) = some c → c ≠ "" →
        ∀ kv ∈ l, category_of c8w_state kv.1 = .ok c) ∧
      (∀ v, (some "V" : Option String) = some v → v ≠ "" →
        ∀ kv ∈ l, kv.2.vendor = v) ∧
      (∀ n, (some 1 : Option Nat) = some n → n ≠ 0 → l.length ≤ n) :=
  C8_query_behaviour c8w_state (some 1) (some "Shoes") (some "V") (by
    intro kv hkv
    simp only [c8w_state] at hkv
    rcases List.mem_cons.mp hkv with h | h
    · subst h
      rfl
    · rcases List.mem_cons.mp h with h | h
      · subst h
        rfl
      · cases h)

/-- The entry batch does not depend on the stored mapping. -/
theorem entries_for_rs (s : State) (X : List (Int × RankingEntry)) (now : Int) :
    ∀ ps, entries_for { s with ranking_scores := X } now ps = entries_for s now ps := by
  intro ps
  induction ps with
  | nil => rfl
  | cons p t ih =>
    have h : score_parts { s with ranking_scores := X } now p.id
        = score_parts s now p.id := rfl
    simp only [entries_for, h, ih]

/-- The recomputation loop stores exactly the pure entry batch over the
incoming mapping and reports the batch's error outcome. -/
theorem run_products_eq (now : Int) :
    ∀ (ps : List Product) (s : State),
    run_products now s ps =
      ({ s with ranking_scores := storeAll s.ranking_scores (entries_for s now ps).2 },
        (entries_for s now ps).1) := by
  intro ps
  induction ps with
  | nil => intro s; rfl
  | cons p t ih =>
    intro s
    rw [run_products]
    simp only [calculate_ranking_score]
    cases hsp : score_parts s now p.id with
    | error e =>
      simp only [entries_for, hsp]
      rfl
    | ok parts =>
      dsimp only
      rw [ih { s with ranking_scores := store s.ranking_scores p.id (mk_entry p now parts) }]
      simp only [entries_for, hsp, entries_for_rs]
      rfl

theorem lookupLast_isSome {pid : Int} :
    ∀ {E : List (Int × RankingEntry)}, pid ∈ E.map Prod.fst →
    (lookupLast pid E).isSome = true := by
  intro E
  induction E with
  | nil => intro h; cases h
  | cons e es ih =>
    intro h
    rw [lookupLast]
    cases hl : lookupLast pid es with
    | some v => rfl
    | none =>
      rcases List.mem_map.mp h with ⟨kv, hkv, hfst⟩
      rcases List.mem_cons.mp hkv with hkv | hkv
      · subst hkv
        rw [if_pos hfst]
        rfl
      · have := ih (List.mem_map.mpr ⟨kv, hkv, hfst⟩)
        rw [hl] at this
        cases this

theorem lookupLast_eq_none {pid : Int} :
    ∀ {E : List (Int × RankingEntry)}, pid ∉ E.map Prod.fst →
    lookupLast pid E = none := by
  intro E
  induction E with
  | nil => intro _; rfl
  | cons e es ih =>
    intro h
    have h1 : e.1 ≠ pid := fun he =>
      h (List.mem_map.mpr ⟨e, List.mem_cons_self _ _, he⟩)
    have h2 : pid ∉ es.map Prod.fst := fun he => by
      rcases List.mem_map.mp he with ⟨kv, hkv, hfst⟩
      exact h (List.mem_map.mpr ⟨kv, List.mem_cons_of_mem _ hkv, hfst⟩)
    rw [lookupLast, ih h2, if_neg h1]

theorem lookup_storeAll_not_mem {pid : Int} :
    ∀ (E : List (Int × RankingEntry)) (M : List (Int × RankingEntry)),
    pid ∉ E.map Prod.fst →
    (storeAll M E).lookup pid = M.lookup pid := by
  intro E
  induction E with
  | nil => intro M _; rfl
  | cons e es ih =>
    intro M h
    have h1 : pid ≠ e.1 := fun he =>
      h (List.mem_map.mpr ⟨e, List.mem_cons_self _ _, he.symm⟩)
    have h2 : pid ∉ es.map Prod.fst := fun he => by
      rcases List.mem_map.mp he with ⟨kv, hkv, hfst⟩
      exact h (List.mem_map.mpr ⟨kv, List.mem_cons_of_mem _ hkv, hfst⟩)
    rw [storeAll, ih _ h2, lookup_store, if_neg h1]

theorem lookup_storeAll_mem {pid : Int} :
    ∀ (E : List (Int × RankingEntry)) (M : List (Int × RankingEntry)),
    pid ∈ E.map Prod.fst →
    (storeAll M E).lookup pid = lookupLast pid E := by
  intro E
  induction E with
  | nil => intro M h; cases h
  | cons e es ih =>
    intro M h
    by_cases hm : pid ∈ es.map Prod.fst
    · rw [storeAll, ih _ hm, lookupLast]
      cases hl : lookupLast pid es with
      | some v => rfl
      | none =>
        have := lookupLast_isSome hm
        rw [hl] at this
        cases this
    · have h1 : e.1 = pid := by
        rcases List.mem_map.mp h with ⟨kv, hkv, hfst⟩
        rcases List.mem_cons.mp hkv with hkv | hkv
        · subst hkv; exact hfst
        · exact absurd (List.mem_map.mpr ⟨kv, hkv, hfst⟩) hm
      rw [storeAll, lookup_storeAll_not_mem _ _ hm, lookup_store,
        if_pos h1.symm, lookupLast, lookupLast_eq_none hm, if_pos h1]

theorem lookupLast_map_set_updated (pid : Int) (t : Int) :
    ∀ (E : List (Int × RankingEntry)),
    lookupLast pid (E.map (fun kv => (kv.1, set_updated kv.2 t)))
      = (lookupLast pid E).map (fun e => set_updated e t) := by
  intro E
  induction E with
  | nil => rfl
  | cons e es ih =>
    rw [List.map_cons, lookupLast, lookupLast, ih]
    cases lookupLast pid es with
    | some v => rfl
    | none =>
      dsimp only [Option.map_none]
      by_cases hp : e.1 = pid
      · rw [if_pos hp, if_pos hp]
        rfl
      · rw [if_neg hp, if_neg hp]
        rfl

theorem map_fst_map_set_updated (t : Int) (E : List (Int × RankingEntry)) :
    (E.map (fun kv => (kv.1, set_updated kv.2 t))).map Prod.fst
      = E.map Prod.fst := by
  rw [List.map_map]
  rfl

theorem trending_recent_sales_time_congr (s : State) (t1 t2 pid : Int)
    (h1 : ∀ o ∈ s.orders,
      (t1 - s.config.trending_period_days * secondsPerDay < o.created_at ↔
        t2 - s.config.trending_period_days * secondsPerDay < o.created_at)) :
    trending_recent_sales s t2 pid = trending_recent_sales s t1 pid := by
  simp only [trending_recent_sales]
  rw [List.filter_congr (fun o ho => decide_eq_decide.mpr
    (and_congr_right fun _ => (h1 o ho).symm))]

theorem trending_previous_sales_time_congr (s : State) (t1 t2 pid : Int)
    (h1 : ∀ o ∈ s.orders,
      (t1 - s.config.trending_period_days * secondsPerDay < o.created_at ↔
        t2 - s.config.trending_period_days * secondsPerDay < o.created_at))
    (h2 : ∀ o ∈ s.orders,
      (t1 - 2 * (s.config.trending_period_days * secondsPerDay) < o.created_at ↔
        t2 - 2 * (s.config.trending_period_days * secondsPerDay) < o.created_at)) :
    trending_previous_sales s t2 pid = trending_previous_sales s t1 pid := by
  simp only [trending_previous_sales]
  refine Eq.symm ?_
  rw [List.filter_congr (fun o ho => decide_eq_decide.mpr
    (and_congr_right fun _ => and_congr ?_ ?_))]
  · rw [← not_lt, ← not_lt]
    exact not_congr (h1 o ho)
  · exact h2 o ho

theorem calculate_trending_score_time_congr (s : State) (t1 t2 pid : Int)
    (h1 : ∀ o ∈ s.orders,
      (t1 - s.config.trending_period_days * secondsPerDay < o.created_at ↔
        t2 - s.config.trending_period_days * secondsPerDay < o.created_at))
    (h2 : ∀ o ∈ s.orders,
      (t1 - 2 * (s.config.trending_period_days * secondsPerDay) < o.created_at ↔
        t2 - 2 * (s.config.trending_period_days * secondsPerDay) < o.created_at)) :
    calculate_trending_score s t2 pid = calculate_trending_score s t1 pid := by
  simp only [calculate_trending_score,
    trending_recent_sales_time_congr s t1 t2 pid h1,
    trending_previous_sales_time_congr s t1 t2 pid h1 h2]

theorem calculate_conversion_rate_score_time_congr (s : State) (t1 t2 pid : Int)
    (h1 : ∀ o ∈ s.orders,
      (t1 - s.config.trending_period_days * secondsPerDay < o.created_at ↔
        t2 - s.config.trending_period_days * secondsPerDay < o.created_at))
    (h2 : ∀ o ∈ s.orders,
      (t1 - 2 * (s.config.trending_period_days * secondsPerDay) < o.created_at ↔
        t2 - 2 * (s.config.trending_period_days * secondsPerDay) < o.created_at)) :
    calculate_conversion_rate_score s t2 pid
      = calculate_conversion_rate_score s t1 pid := by
  simp only [calculate_conversion_rate_score,
    calculate_trending_score_time_congr s t1 t2 pid h1 h2]

theorem calculate_sell_through_score_time_congr (s : State) (t1 t2 pid : Int)
    (h3 : ∀ o ∈ s.orders,
      (t1 - 30 * secondsPerDay < o.created_at ↔
        t2 - 30 * secondsPerDay < o.created_at))
    (h4 : ∀ p ∈ s.products,
      days_between p.createdAt t1 = days_between p.createdAt t2) :
    calculate_sell_through_score s t2 pid
      = calculate_sell_through_score s t1 pid := by
  simp only [calculate_sell_through_score]
  cases hf : find_product s pid with
  | none => rfl
  | some p =>
    have hmem : p ∈ s.products := List.mem_of_find?_eq_some hf
    dsimp only
    rw [← h4 p hmem,
      List.filter_congr (fun o ho => decide_eq_decide.mpr
        (and_congr_right fun _ => (h3 o ho).symm))]

/-- Two pass times between which no order crosses a trending or 30-day
window boundary and no product's whole-day age changes produce the same
sub-scores for every product id. -/
theorem score_parts_time_congr (s : State) (t1 t2 : Int)
    (h1 : ∀ o ∈ s.orders,
      (t1 - s.config.trending_period_days * secondsPerDay < o.created_at ↔
        t2 - s.config.trending_period_days * secondsPerDay < o.created_at))
    (h2 : ∀ o ∈ s.orders,
      (t1 - 2 * (s.config.trending_period_days * secondsPerDay) < o.created_at ↔
        t2 - 2 * (s.config.trending_period_days * secondsPerDay) < o.created_at))
    (h3 : ∀ o ∈ s.orders,
      (t1 - 30 * secondsPerDay < o.created_at ↔
        t2 - 30 * secondsPerDay < o.created_at))
    (h4 : ∀ p ∈ s.products,
      days_between p.createdAt t1 = days_between p.createdAt t2) :
    ∀ pid, score_parts s t2 pid = score_parts s t1 pid := by
  intro pid
  simp only [score_parts,
    calculate_conversion_rate_score_time_congr s t1 t2 pid h1 h2,
    calculate_sell_through_score_time_congr s t1 t2 pid h3 h4]

/-- Between two sub-score-equivalent pass times, the entry batches differ
only in the recorded timestamp. -/
theorem entries_for_retime (s : State) (t1 t2 : Int)
    (hsp : ∀ pid, score_parts s t2 pid = score_parts s t1 pid) :
    ∀ ps, entries_for s t2 ps =
      ((entries_for s t1 ps).1,
        (entries_for s t1 ps).2.map (fun kv => (kv.1, set_updated kv.2 t2))) := by
  intro ps
  induction ps with
  | nil => rfl
  | cons p t ih =>
    simp only [entries_for, hsp p.id]
    cases hq : score_parts s t1 p.id with
    | error e => rfl
    | ok parts =>
      dsimp only
      rw [ih]
      rfl

/-- Claim C2: running the full recomputation twice in succession — the two
pass times close enough that no order crosses a trending or 30-day window
boundary and no product's whole-day age changes, which formalises
"in succession" — yields for every product id the same stored total score,
title, vendor and sub-score breakdown; only the recorded `updated_at`
timestamp may differ, and the error outcome of the second pass equals that
of the first. -/
theorem C2_recompute_idempotent (s : State) (t1 t2 pid : Int)
    (h1 : ∀ o ∈ s.orders,
      (t1 - s.config.trending_period_days * secondsPerDay < o.created_at ↔
        t2 - s.config.trending_period_days * secondsPerDay < o.created_at))
    (h2 : ∀ o ∈ s.orders,
      (t1 - 2 * (s.config.trending_period_days * secondsPerDay) < o.created_at ↔
        t2 - 2 * (s.config.trending_period_days * secondsPerDay) < o.created_at))
    (h3 : ∀ o ∈ s.orders,
      (t1 - 30 * secondsPerDay < o.created_at ↔
        t2 - 30 * secondsPerDay < o.created_at))
    (h4 : ∀ p ∈ s.products,
      days_between p.createdAt t1 = days_between p.createdAt t2) :
    (update_all_rankings (update_all_rankings s t1).1 t2).2
        = (update_all_rankings s t1).2 ∧
    ((update_all_rankings (update_all_rankings s t1).1 t2).1.ranking_scores.lookup pid).map
        erase_updated
      = ((update_all_rankings s t1).1.ranking_scores.lookup pid).map erase_updated := by
  have hsp := score_parts_time_congr s t1 t2 h1 h2 h3 h4
  have hrun1 : update_all_rankings s t1 =
      ({ s with ranking_scores := storeAll s.ranking_scores (entries_for s t1 s.products).2 },
        (entries_for s t1 s.products).1) :=
    run_products_eq t1 s.products s
  have hE : entries_for { s with ranking_scores := storeAll s.ranking_scores (entries_for s t1 s.products).2 } t2 s.products
      = ((entries_for s t1 s.products).1,
        (entries_for s t1 s.products).2.map (fun kv => (kv.1, set_updated kv.2 t2))) := by
    rw [entries_for_rs, entries_for_retime s t1 t2 hsp]
  have hrun2 : update_all_rankings (update_all_rankings s t1).1 t2 =
      ({ s with ranking_scores := storeAll (storeAll s.ranking_scores (entries_for s t1 s.products).2) ((entries_for s t1 s.products).2.map (fun kv => (kv.1, set_updated kv.2 t2))) },
        (entries_for s t1 s.products).1) := by
    rw [hrun1]
    have hre := run_products_eq t2 s.products
      { s with ranking_scores := storeAll s.ranking_scores (entries_for s t1 s.products).2 }
    rw [show update_all_rankings { s with ranking_scores := storeAll s.ranking_scores (entries_for s t1 s.products).2 } t2 = _ from hre]
    rw [hE]
  constructor
  · rw [hrun2, hrun1]
  · rw [hrun2, hrun1]
    dsimp only
    by_cases hm : pid ∈ (entries_for s t1 s.products).2.map Prod.fst
    · rw [lookup_storeAll_mem _ _ (by rw [map_fst_map_set_updated]; exact hm),
        lookup_storeAll_mem _ _ hm, lookupLast_map_set_updated]
      cases lookupLast pid (entries_for s t1 s.products).2 with
      | none => rfl
      | some v => rfl
    · rw [lookup_storeAll_not_mem _ _ (by rw [map_fst_map_set_updated]; exact hm)]

/-- Witness for C2: two passes 1000 seconds apart over the concrete state
agree on everything but the recorded timestamp. -/
theorem C2_witness :
    (update_all_rankings (update_all_rankings c2w_state 1000).1 2000).2
        = (update_all_rankings c2w_state 1000).2 ∧
    ((update_all_rankings (update_all_rankings c2w_state 1000).1 2000).1.ranking_scores.lookup 1).map
        erase_updated
      = ((update_all_rankings c2w_state 1000).1.ranking_scores.lookup 1).map erase_updated :=
  C2_recompute_idempotent c2w_state 1000 2000 1 (by decide) (by decide) (by decide)
    (by decide)

end CatalogAI
